import Mathlib

/-!
A verification development for the help-channel triage state machine of the
`cogbot` repository (`cogbot/extensions/helpchat.py`).

Channel status is encoded entirely in the channel-name prefix; the triage
logic is a handful of string and timestamp conditionals, embedded here as
pure functions.  External calls issued by the bot (channel rename, message
send, reaction add, moderation log) are recorded as an explicit `Effect`
list; time (`datetime.utcnow()`) enters each handler as a `now : Nat`
parameter, and the platform's fetch-latest-message call as an oracle
`latest : Nat → Nat` from channel id to the timestamp of its latest message.

Strings model Python `str` as sequences of code points: `strStartsWith`
models `str.startswith` and `strDrop` models slicing `s[n:]`.
-/

/-- Models Python `name.startswith(p)`: is `p` a prefix of `name`
(code-point-wise). -/
def strStartsWith (name p : String) : Bool := decide (p.data <+: name.data)

/-- Models Python slicing `s[n:]` (`n` counted in code points). -/
def strDrop (s : String) (n : Nat) : String := String.mk (s.data.drop n)

/-- A chat user.  `display` stands for `str(user)` used by templates. -/
structure Member where
  id : Nat
  display : String
deriving DecidableEq

/-- Python `member.mention`. -/
def Member.mention (m : Member) : String := "<@" ++ toString m.id ++ ">"

/-- A chat channel: identifier and current name (which carries the status
marker). -/
structure Channel where
  id : Nat
  name : String
deriving DecidableEq

/-- Python `channel.mention`. -/
def Channel.mention (c : Channel) : String := "<#" ++ toString c.id ++ ">"

/-- An inbound chat message. `server = none` models a direct message. -/
structure Message where
  id : Nat
  author : Member
  channel : Channel
  content : String
  server : Option Nat
deriving DecidableEq

/-- A reaction event: the emoji, its count on the message so far, and the
reacted message. -/
structure Reaction where
  emoji : String
  count : Nat
  message : Message
deriving DecidableEq

/-- One token of a configured redirect-notice template: a literal piece or
one of the placeholders `{author}`, `{reactor}`, `{from_channel}`,
`{to_channel}`. -/
inductive TmplTok where
  | lit (s : String)
  | author
  | reactor
  | fromChannel
  | toChannel
deriving DecidableEq

/-- Rendering of one template token, as Python `str.format` does with the
keyword arguments passed by `redirect`. -/
def renderTok (author reactor : Member) (from_channel : Channel)
    (to_channel : Option Channel) : TmplTok → String
  | .lit s => s
  | .author => author.display
  | .reactor => reactor.display
  | .fromChannel => from_channel.name
  | .toChannel => match to_channel with
    | some c => c.name
    | none => ""

/-- Rendering of a whole template (`str.format`). -/
def renderTemplate (tmpl : List TmplTok) (author reactor : Member)
    (from_channel : Channel) (to_channel : Option Channel) : String :=
  String.join (tmpl.map (renderTok author reactor from_channel to_channel))

/-- An external call issued to the chat platform, recorded instead of
performed: `bot.edit_channel(channel, name=new_name)`, `bot.mod_log(actor,
text, icon=icon)`, `bot.send_message(channel, text)`,
`bot.add_reaction(message, emoji)`. -/
inductive Effect where
  | editChannel (channelId : Nat) (new_name : String)
  | modLog (actor : Member) (text : String) (icon : String)
  | sendMessage (channelId : Nat) (text : String)
  | addReaction (messageId : Nat) (emoji : String)
deriving DecidableEq

/-- The per-community triage state, mirroring `HelpChatServerState.__init__`:
the managed channels (in configured order), the two redirect templates, the
staleness threshold and poll interval (seconds), the three status marker
strings (the source's `free_prefix`, `busy_prefix`, `stale_prefix`), the two
emoji, the resolve-by-reaction flag, and the last-sweep timestamp. -/
structure HelpChatServerState where
  bot_user_id : Nat
  channels : List Channel
  message_with_channel : List TmplTok
  message_without_channel : List TmplTok
  seconds_until_stale : Nat
  seconds_to_poll : Nat
  relocate_emoji : String
  resolve_emoji : String
  free_prefix : String
  busy_prefix : String
  stale_prefix : String
  resolve_with_reaction : Bool
  last_polled : Nat
deriving DecidableEq

namespace HelpChatServerState

/-- `is_channel`: the channel name starts with the given status marker. -/
def is_channel (_s : HelpChatServerState) (channel : Channel) (pfx : String) : Bool :=
  strStartsWith channel.name pfx

/-- `is_channel_free`. -/
def is_channel_free (s : HelpChatServerState) (channel : Channel) : Bool :=
  s.is_channel channel s.free_prefix

/-- `is_channel_busy`. -/
def is_channel_busy (s : HelpChatServerState) (channel : Channel) : Bool :=
  s.is_channel channel s.busy_prefix

/-- `is_channel_stale`. -/
def is_channel_stale (s : HelpChatServerState) (channel : Channel) : Bool :=
  s.is_channel channel s.stale_prefix

/-- `get_free_channel`: the first managed channel whose name carries the free
marker (`None` when there is none). -/
def get_free_channel (s : HelpChatServerState) : Option Channel :=
  s.channels.find? (fun channel => s.is_channel_free channel)

/-- `get_base_channel_name`: strip whichever status marker matches, checked
in free, busy, stale order; a name matching none is returned unmodified. -/
def get_base_channel_name (s : HelpChatServerState) (channel : Channel) : String :=
  if s.is_channel_free channel then strDrop channel.name s.free_prefix.length
  else if s.is_channel_busy channel then strDrop channel.name s.busy_prefix.length
  else if s.is_channel_stale channel then strDrop channel.name s.stale_prefix.length
  else channel.name

/-- `redirect`: find a free channel; log and compose the redirect notice with
the destination when one exists, without it otherwise; then send the notice
into the origin channel.  No rename is ever issued here. -/
def redirect (s : HelpChatServerState) (message : Message) (reactor : Member) :
    List Effect :=
  let author := message.author
  let from_channel := message.channel
  match s.get_free_channel with
  | some to_channel =>
      [Effect.modLog reactor
        ("relocated " ++ author.mention ++ " from " ++ from_channel.mention
          ++ " to " ++ to_channel.mention) ":arrow_right:",
       Effect.sendMessage message.channel.id
        (renderTemplate s.message_with_channel author reactor from_channel
          (some to_channel))]
  | none =>
      [Effect.modLog reactor
        ("relocated " ++ author.mention ++ " from " ++ from_channel.mention)
        ":arrow_right:",
       Effect.sendMessage message.channel.id
        (renderTemplate s.message_without_channel author reactor from_channel none)]

/-- `mark_channel`: recompute the target name from the stripped base name;
issue the rename only when the target differs from the current name.
Returns the source's `True`/`None` result as a `Bool`, together with the
channel as it stands afterwards and the recorded external calls. -/
def mark_channel (s : HelpChatServerState) (channel : Channel) (pfx : String) :
    Bool × Channel × List Effect :=
  let base_name := s.get_base_channel_name channel
  let new_name := pfx ++ base_name
  if new_name ≠ channel.name then
    (true, { channel with name := new_name }, [Effect.editChannel channel.id new_name])
  else
    (false, channel, [])

/-- `mark_channel_free`: transition toward free, only from busy or stale. -/
def mark_channel_free (s : HelpChatServerState) (channel : Channel) :
    Bool × Channel × List Effect :=
  if s.is_channel_busy channel || s.is_channel_stale channel then
    s.mark_channel channel s.free_prefix
  else (false, channel, [])

/-- `mark_channel_busy`: transition toward busy, only from free or stale. -/
def mark_channel_busy (s : HelpChatServerState) (channel : Channel) :
    Bool × Channel × List Effect :=
  if s.is_channel_free channel || s.is_channel_stale channel then
    s.mark_channel channel s.busy_prefix
  else (false, channel, [])

/-- `mark_channel_stale`: transition toward stale, only from free or busy. -/
def mark_channel_stale (s : HelpChatServerState) (channel : Channel) :
    Bool × Channel × List Effect :=
  if s.is_channel_free channel || s.is_channel_busy channel then
    s.mark_channel channel s.stale_prefix
  else (false, channel, [])

/-- A rename mutates the shared channel object in place, so every managed-list
entry equal to the old object now shows the new one. -/
def update_channel (s : HelpChatServerState) (old upd : Channel) : HelpChatServerState :=
  { s with channels := s.channels.map (fun c => if c = old then upd else c) }

/-- `poll_channels` (the sweep): every managed channel currently busy whose
latest message is older than the staleness threshold is marked stale.  In the
source the loop mutates each channel object in place; managed channels are
distinct objects and an iteration reads and writes only its own channel, so
the loop acts independently per channel. -/
def poll_channels (s : HelpChatServerState) (now : Nat) (latest : Nat → Nat) :
    HelpChatServerState × List Effect :=
  let results := s.channels.map (fun channel =>
    if s.is_channel_busy channel then
      let latest_ts := latest channel.id
      let then_ts := latest_ts + s.seconds_until_stale
      if now > then_ts then
        let r := s.mark_channel_stale channel
        (r.2.1, r.2.2)
      else (channel, ([] : List Effect))
    else (channel, ([] : List Effect)))
  ({ s with channels := results.map Prod.fst }, (results.map Prod.snd).flatten)

/-- `maybe_poll_channels`: run the sweep only when more than the poll
interval has passed since `last_polled`, recording the new sweep time. -/
def maybe_poll_channels (s : HelpChatServerState) (now : Nat) (latest : Nat → Nat) :
    HelpChatServerState × List Effect :=
  let then_ts := s.last_polled + s.seconds_to_poll
  if now > then_ts then
    let s1 := { s with last_polled := now }
    s1.poll_channels now latest
  else (s, [])

/-- `on_message`: in a managed channel, a message that is exactly the resolve
marker tries to free the channel (logging when a rename was issued); any other
message marks it busy.  Afterwards the rate-limited sweep check runs. -/
def on_message (s : HelpChatServerState) (message : Message) (now : Nat)
    (latest : Nat → Nat) : HelpChatServerState × List Effect :=
  let channel := message.channel
  let core : HelpChatServerState × List Effect :=
    if channel ∈ s.channels then
      if message.content = s.resolve_emoji then
        let r := s.mark_channel_free channel
        let s1 := s.update_channel channel r.2.1
        if r.1 then
          (s1, r.2.2 ++ [Effect.modLog message.author
            ("resolved " ++ channel.mention) ":white_check_mark:"])
        else (s1, r.2.2)
      else
        let r := s.mark_channel_busy channel
        (s.update_channel channel r.2.1, r.2.2)
    else (s, [])
  let p := core.1.maybe_poll_channels now latest
  (p.1, core.2 ++ p.2)

/-- `on_reaction`: the relocate branch (first relocate reaction on a
non-bot message) and the resolve branch (enabled by flag, managed channel,
latest message), then the rate-limited sweep check.  `is_latest` is the
oracle for `bot.is_latest_message(message)`. -/
def on_reaction (s : HelpChatServerState) (reaction : Reaction) (reactor : Member)
    (is_latest : Bool) (now : Nat) (latest : Nat → Nat) :
    HelpChatServerState × List Effect :=
  let message := reaction.message
  let channel := message.channel
  let author := message.author
  let relocate_effects :=
    if reaction.emoji = s.relocate_emoji ∧ reaction.count = 1 ∧
        author.id ≠ s.bot_user_id then
      s.redirect message reactor ++ [Effect.addReaction message.id s.relocate_emoji]
    else []
  let resolve_result : HelpChatServerState × List Effect :=
    if reaction.emoji = s.resolve_emoji ∧ s.resolve_with_reaction = true ∧
        channel ∈ s.channels ∧ is_latest = true then
      let r := s.mark_channel_free channel
      let s1 := s.update_channel channel r.2.1
      if r.1 then
        (s1, r.2.2 ++ [Effect.addReaction message.id s.resolve_emoji,
          Effect.modLog reactor ("resolved " ++ channel.mention) ":white_check_mark:"])
      else (s1, r.2.2)
    else (s, [])
  let p := resolve_result.1.maybe_poll_channels now latest
  (p.1, relocate_effects ++ resolve_result.2 ++ p.2)

/-- A driver folding `maybe_poll_channels` over a stream of inbound-event
timestamps (every handler ends with the sweep check); returns the final state
and the timestamps at which the sweep actually ran. -/
def run_events (latest : Nat → Nat) :
    HelpChatServerState → List Nat → HelpChatServerState × List Nat
  | s, [] => (s, [])
  | s, t :: ts =>
    let r := s.maybe_poll_channels t latest
    let rest := run_events latest r.1 ts
    if t > s.last_polled + s.seconds_to_poll then (rest.1, t :: rest.2) else rest

/-- How many of the three status markers the given name starts with (the
claims' "number of status markers"). -/
def status_marker_count (s : HelpChatServerState) (name : String) : Nat :=
  (if strStartsWith name s.free_prefix then 1 else 0) +
  (if strStartsWith name s.busy_prefix then 1 else 0) +
  (if strStartsWith name s.stale_prefix then 1 else 0)

/-- No status marker string is a prefix of another (true of the default
configuration, three distinct single-character markers). -/
def distinct_markers (s : HelpChatServerState) : Prop :=
  (¬ s.free_prefix.data <+: s.busy_prefix.data) ∧
  (¬ s.busy_prefix.data <+: s.free_prefix.data) ∧
  (¬ s.free_prefix.data <+: s.stale_prefix.data) ∧
  (¬ s.stale_prefix.data <+: s.free_prefix.data) ∧
  (¬ s.busy_prefix.data <+: s.stale_prefix.data) ∧
  (¬ s.stale_prefix.data <+: s.busy_prefix.data)

instance (s : HelpChatServerState) : Decidable s.distinct_markers := by
  unfold distinct_markers; infer_instance

end HelpChatServerState

/-- The extension object: the bot identity and the per-server triage states
(`HelpChat.server_state`). -/
structure HelpChat where
  bot_user_id : Nat
  server_state : List (Nat × HelpChatServerState)
deriving DecidableEq

namespace HelpChat

/-- `get_state`: the triage state registered for a server id, if any. -/
def get_state (hc : HelpChat) (server_id : Nat) : Option HelpChatServerState :=
  (hc.server_state.find? (fun p => p.1 == server_id)).map Prod.snd

/-- Store back an updated triage state for a server id. -/
def set_state (hc : HelpChat) (server_id : Nat) (st : HelpChatServerState) : HelpChat :=
  let updated := hc.server_state.map (fun p => if p.1 = server_id then (p.1, st) else p)
  { hc with server_state := updated }

/-- `HelpChat.on_reaction_add`: ignore DMs (reactor not a `Member`) and the
bot's own reactions; otherwise delegate to the server state's handler. -/
def on_reaction_add (hc : HelpChat) (reaction : Reaction) (reactor : Member)
    (reactor_is_member : Bool) (reactor_server : Nat) (is_latest : Bool)
    (now : Nat) (latest : Nat → Nat) : HelpChat × List Effect :=
  if reactor_is_member then
    match hc.get_state reactor_server with
    | some st =>
      if reactor.id ≠ hc.bot_user_id then
        let r := st.on_reaction reaction reactor is_latest now latest
        (hc.set_state reactor_server r.1, r.2)
      else (hc, [])
    | none => (hc, [])
  else (hc, [])

/-- `HelpChat.on_message`: ignore DMs (no server) and the bot's own messages;
otherwise delegate to the server state's handler. -/
def on_message (hc : HelpChat) (message : Message) (now : Nat)
    (latest : Nat → Nat) : HelpChat × List Effect :=
  match message.server with
  | some server_id =>
    match hc.get_state server_id with
    | some st =>
      if message.author.id ≠ hc.bot_user_id then
        let r := st.on_message message now latest
        (hc.set_state server_id r.1, r.2)
      else (hc, [])
    | none => (hc, [])
  | none => (hc, [])

end HelpChat

/-! ### String-level helper lemmas -/

theorem strStartsWith_iff {name p : String} :
    strStartsWith name p = true ↔ p.data <+: name.data := by
  simp [strStartsWith]

theorem strStartsWith_append (p b : String) : strStartsWith (p ++ b) p = true := by
  rw [strStartsWith_iff, String.data_append]
  exact List.prefix_append p.data b.data

theorem strDrop_append (p b : String) : strDrop (p ++ b) p.length = b := by
  have hlen : p.length = p.data.length := rfl
  rw [strDrop, String.data_append, hlen, List.drop_left]

theorem startsWith_eq_append {name p : String} (h : strStartsWith name p = true) :
    name = p ++ strDrop name p.length := by
  have hp : p.data <+: name.data := strStartsWith_iff.mp h
  have : p.data ++ name.data.drop p.data.length = name.data :=
    List.prefix_iff_eq_append.mp hp
  apply String.ext
  rw [String.data_append]
  exact (this.trans rfl).symm

theorem startsWith_append_other {p q : String} (b : String)
    (hpq : ¬ p.data <+: q.data) (hqp : ¬ q.data <+: p.data) :
    strStartsWith (p ++ b) q = false := by
  apply decide_eq_false
  intro h
  rw [String.data_append] at h
  rcases List.prefix_or_prefix_of_prefix h (List.prefix_append p.data b.data) with h1 | h1
  · exact hqp h1
  · exact hpq h1

theorem string_ne_of_not_pfx {p q : String} (h : ¬ p.data <+: q.data) : p ≠ q := by
  intro he
  exact h (he ▸ List.prefix_rfl)

theorem append_ne_append {p q : String} (b : String) (h : p ≠ q) : p ++ b ≠ q ++ b := by
  intro he
  apply h
  have hd : p.data ++ b.data = q.data ++ b.data := by
    rw [← String.data_append, ← String.data_append, he]
  exact String.ext (List.append_cancel_right hd)

namespace HelpChatServerState

/-! ### Helper lemmas about marker bookkeeping -/

theorem is_channel_free_def (s : HelpChatServerState) (c : Channel) :
    s.is_channel_free c = strStartsWith c.name s.free_prefix := rfl

theorem is_channel_busy_def (s : HelpChatServerState) (c : Channel) :
    s.is_channel_busy c = strStartsWith c.name s.busy_prefix := rfl

theorem is_channel_stale_def (s : HelpChatServerState) (c : Channel) :
    s.is_channel_stale c = strStartsWith c.name s.stale_prefix := rfl

theorem marker_count_free_append (s : HelpChatServerState) (hd : s.distinct_markers)
    (b : String) : s.status_marker_count (s.free_prefix ++ b) = 1 := by
  obtain ⟨h1, h2, h3, h4, h5, h6⟩ := hd
  rw [status_marker_count, strStartsWith_append,
    startsWith_append_other b h1 h2, startsWith_append_other b h3 h4]
  simp

theorem marker_count_busy_append (s : HelpChatServerState) (hd : s.distinct_markers)
    (b : String) : s.status_marker_count (s.busy_prefix ++ b) = 1 := by
  obtain ⟨h1, h2, h3, h4, h5, h6⟩ := hd
  rw [status_marker_count, strStartsWith_append,
    startsWith_append_other b h2 h1, startsWith_append_other b h5 h6]
  simp

theorem marker_count_stale_append (s : HelpChatServerState) (hd : s.distinct_markers)
    (b : String) : s.status_marker_count (s.stale_prefix ++ b) = 1 := by
  obtain ⟨h1, h2, h3, h4, h5, h6⟩ := hd
  rw [status_marker_count, strStartsWith_append,
    startsWith_append_other b h4 h3, startsWith_append_other b h6 h5]
  simp

theorem get_base_free_append (s : HelpChatServerState) (_hd : s.distinct_markers)
    (i : Nat) (b : String) :
    s.get_base_channel_name ⟨i, s.free_prefix ++ b⟩ = b := by
  rw [get_base_channel_name]
  simp only [is_channel_free_def, is_channel_busy_def, is_channel_stale_def]
  rw [strStartsWith_append]
  simp [strDrop_append]

theorem get_base_busy_append (s : HelpChatServerState) (hd : s.distinct_markers)
    (i : Nat) (b : String) :
    s.get_base_channel_name ⟨i, s.busy_prefix ++ b⟩ = b := by
  obtain ⟨h1, h2, h3, h4, h5, h6⟩ := hd
  rw [get_base_channel_name]
  simp only [is_channel_free_def, is_channel_busy_def, is_channel_stale_def]
  rw [startsWith_append_other b h2 h1, strStartsWith_append]
  simp [strDrop_append]

theorem get_base_stale_append (s : HelpChatServerState) (hd : s.distinct_markers)
    (i : Nat) (b : String) :
    s.get_base_channel_name ⟨i, s.stale_prefix ++ b⟩ = b := by
  obtain ⟨h1, h2, h3, h4, h5, h6⟩ := hd
  rw [get_base_channel_name]
  simp only [is_channel_free_def, is_channel_busy_def, is_channel_stale_def]
  rw [startsWith_append_other b h4 h3, startsWith_append_other b h6 h5,
    strStartsWith_append]
  simp [strDrop_append]

theorem mark_channel_of_base (s : HelpChatServerState) (c : Channel) (m b : String)
    (hbase : s.get_base_channel_name c = b) (hne : m ++ b ≠ c.name) :
    s.mark_channel c m =
      (true, ⟨c.id, m ++ b⟩, [Effect.editChannel c.id (m ++ b)]) := by
  simp [mark_channel, hbase, hne]

theorem mark_channel_self (s : HelpChatServerState) (c : Channel) (m : String)
    (h : m ++ s.get_base_channel_name c = c.name) :
    s.mark_channel c m = (false, c, []) := by
  simp [mark_channel, h]

end HelpChatServerState

/-! ### Concrete configurations for witnesses and counterexamples -/

/-- A concrete state with the default configuration of
`HelpChatServerState.__init__` (markers check mark / speech balloon / alarm
clock, resolve emoji check mark) and two managed channels. -/
def defaultState : HelpChatServerState where
  bot_user_id := 99
  channels := [⟨1, "💬alpha"⟩, ⟨2, "✅beta"⟩]
  message_with_channel := [TmplTok.lit "please move to ", TmplTok.toChannel]
  message_without_channel := [TmplTok.lit "please move to another channel"]
  seconds_until_stale := 3600
  seconds_to_poll := 600
  relocate_emoji := "🛴"
  resolve_emoji := "✅"
  free_prefix := "✅"
  busy_prefix := "💬"
  stale_prefix := "⏰"
  resolve_with_reaction := false
  last_polled := 0

/-! ### Claim C8 -/

/-- Claim C8: base-name extraction strips exactly the first matching status
marker, checked in free, busy, stale order; a name matching none of the three
is returned unmodified, and extraction is idempotent on marker-free names. -/
theorem claim_C8 (s : HelpChatServerState) (c : Channel) :
    (s.is_channel_free c = true →
      s.get_base_channel_name c = strDrop c.name s.free_prefix.length) ∧
    (s.is_channel_free c = false → s.is_channel_busy c = true →
      s.get_base_channel_name c = strDrop c.name s.busy_prefix.length) ∧
    (s.is_channel_free c = false → s.is_channel_busy c = false →
      s.is_channel_stale c = true →
      s.get_base_channel_name c = strDrop c.name s.stale_prefix.length) ∧
    (s.is_channel_free c = false → s.is_channel_busy c = false →
      s.is_channel_stale c = false →
      s.get_base_channel_name c = c.name ∧
      s.get_base_channel_name ⟨c.id, s.get_base_channel_name c⟩ =
        s.get_base_channel_name c) := by
  constructor
  · intro h1
    simp [HelpChatServerState.get_base_channel_name, h1]
  constructor
  · intro h1 h2
    simp [HelpChatServerState.get_base_channel_name, h1, h2]
  constructor
  · intro h1 h2 h3
    simp [HelpChatServerState.get_base_channel_name, h1, h2, h3]
  · intro h1 h2 h3
    have hbase : s.get_base_channel_name c = c.name := by
      simp [HelpChatServerState.get_base_channel_name, h1, h2, h3]
    refine ⟨hbase, ?_⟩
    rw [hbase]
    have f1 : s.is_channel_free ⟨c.id, c.name⟩ = false := h1
    have f2 : s.is_channel_busy ⟨c.id, c.name⟩ = false := h2
    have f3 : s.is_channel_stale ⟨c.id, c.name⟩ = false := h3
    simp [HelpChatServerState.get_base_channel_name, f1, f2, f3]

/-- Witness for claim C8 at a concrete marker-free channel name. -/
theorem claim_C8_witness :
    (defaultState.is_channel_free ⟨7, "plain"⟩ = false ∧
      defaultState.is_channel_busy ⟨7, "plain"⟩ = false ∧
      defaultState.is_channel_stale ⟨7, "plain"⟩ = false) ∧
    defaultState.get_base_channel_name ⟨7, "plain"⟩ = "plain" ∧
    defaultState.get_base_channel_name
        ⟨7, defaultState.get_base_channel_name ⟨7, "plain"⟩⟩ =
      defaultState.get_base_channel_name ⟨7, "plain"⟩ :=
  ⟨⟨by decide, by decide, by decide⟩,
    ((claim_C8 defaultState ⟨7, "plain"⟩).2.2.2 (by decide) (by decide) (by decide)).1,
    ((claim_C8 defaultState ⟨7, "plain"⟩).2.2.2 (by decide) (by decide) (by decide)).2⟩

/-! ### Claim C1 -/

/-- Claim C1 counterexample: with the default markers, a managed channel whose
name carries no status marker (hence at most one) is left marker-free by the
transition operation `mark_channel_busy`, so the resulting name does not
contain exactly one status marker. -/
theorem claim_C1_counterexample :
    defaultState.status_marker_count "plain" ≤ 1 ∧
    (defaultState.mark_channel_busy ⟨7, "plain"⟩).2.1 = (⟨7, "plain"⟩ : Channel) ∧
    ¬ defaultState.status_marker_count
        (defaultState.mark_channel_busy ⟨7, "plain"⟩).2.1.name = 1 := by
  refine ⟨by decide, by decide, by decide⟩

/-- Claim C1 (amended): if no status marker is a prefix of another and the
channel's name carries exactly one status marker, then each of the three
transition operations yields a name carrying exactly one status marker and
leaves the base name unchanged. -/
theorem claim_C1_amended (s : HelpChatServerState) (c : Channel)
    (hd : s.distinct_markers) (h1 : s.status_marker_count c.name = 1) :
    (s.status_marker_count (s.mark_channel_free c).2.1.name = 1 ∧
      s.get_base_channel_name (s.mark_channel_free c).2.1 =
        s.get_base_channel_name c) ∧
    (s.status_marker_count (s.mark_channel_busy c).2.1.name = 1 ∧
      s.get_base_channel_name (s.mark_channel_busy c).2.1 =
        s.get_base_channel_name c) ∧
    (s.status_marker_count (s.mark_channel_stale c).2.1.name = 1 ∧
      s.get_base_channel_name (s.mark_channel_stale c).2.1 =
        s.get_base_channel_name c) := by
  obtain ⟨d1, d2, d3, d4, d5, d6⟩ := hd
  have hd' : s.distinct_markers := ⟨d1, d2, d3, d4, d5, d6⟩
  rw [HelpChatServerState.status_marker_count] at h1
  cases hF : strStartsWith c.name s.free_prefix <;>
    cases hB : strStartsWith c.name s.busy_prefix <;>
      cases hS : strStartsWith c.name s.stale_prefix <;>
        rw [hF, hB, hS] at h1 <;> simp at h1
  -- exactly the stale marker matches
  · have hbase : s.get_base_channel_name c = strDrop c.name s.stale_prefix.length := by
      simp [HelpChatServerState.get_base_channel_name,
        HelpChatServerState.is_channel_free_def, HelpChatServerState.is_channel_busy_def,
        HelpChatServerState.is_channel_stale_def, hF, hB, hS]
    set b := strDrop c.name s.stale_prefix.length with hb
    have hname : c.name = s.stale_prefix ++ b := startsWith_eq_append hS
    have hguards_f : s.mark_channel_free c = s.mark_channel c s.free_prefix := by
      simp [HelpChatServerState.mark_channel_free,
        HelpChatServerState.is_channel_busy_def, HelpChatServerState.is_channel_stale_def,
        hB, hS]
    have hguards_b : s.mark_channel_busy c = s.mark_channel c s.busy_prefix := by
      simp [HelpChatServerState.mark_channel_busy,
        HelpChatServerState.is_channel_free_def, HelpChatServerState.is_channel_stale_def,
        hF, hS]
    have hguards_s : s.mark_channel_stale c = (false, c, []) := by
      simp [HelpChatServerState.mark_channel_stale,
        HelpChatServerState.is_channel_free_def, HelpChatServerState.is_channel_busy_def,
        hF, hB]
    have hmf := s.mark_channel_of_base c s.free_prefix b hbase
      (by rw [hname]; exact append_ne_append b (string_ne_of_not_pfx d3))
    have hmb := s.mark_channel_of_base c s.busy_prefix b hbase
      (by rw [hname]; exact append_ne_append b (string_ne_of_not_pfx d5))
    refine ⟨?_, ?_, ?_⟩
    · rw [hguards_f, hmf]
      exact ⟨s.marker_count_free_append hd' b, (s.get_base_free_append hd' c.id b).trans hbase.symm⟩
    · rw [hguards_b, hmb]
      exact ⟨s.marker_count_busy_append hd' b, (s.get_base_busy_append hd' c.id b).trans hbase.symm⟩
    · rw [hguards_s]
      refine ⟨?_, rfl⟩
      rw [HelpChatServerState.status_marker_count, hF, hB, hS]
      simp
  -- exactly the busy marker matches
  · have hbase : s.get_base_channel_name c = strDrop c.name s.busy_prefix.length := by
      simp [HelpChatServerState.get_base_channel_name,
        HelpChatServerState.is_channel_free_def, HelpChatServerState.is_channel_busy_def,
        HelpChatServerState.is_channel_stale_def, hF, hB, hS]
    set b := strDrop c.name s.busy_prefix.length with hb
    have hname : c.name = s.busy_prefix ++ b := startsWith_eq_append hB
    have hguards_f : s.mark_channel_free c = s.mark_channel c s.free_prefix := by
      simp [HelpChatServerState.mark_channel_free,
        HelpChatServerState.is_channel_busy_def, HelpChatServerState.is_channel_stale_def,
        hB, hS]
    have hguards_b : s.mark_channel_busy c = (false, c, []) := by
      simp [HelpChatServerState.mark_channel_busy,
        HelpChatServerState.is_channel_free_def, HelpChatServerState.is_channel_stale_def,
        hF, hS]
    have hguards_s : s.mark_channel_stale c = s.mark_channel c s.stale_prefix := by
      simp [HelpChatServerState.mark_channel_stale,
        HelpChatServerState.is_channel_free_def, HelpChatServerState.is_channel_busy_def,
        hF, hB]
    have hmf := s.mark_channel_of_base c s.free_prefix b hbase
      (by rw [hname]; exact append_ne_append b (string_ne_of_not_pfx d1))
    have hms := s.mark_channel_of_base c s.stale_prefix b hbase
      (by rw [hname]; exact append_ne_append b (string_ne_of_not_pfx d6))
    refine ⟨?_, ?_, ?_⟩
    · rw [hguards_f, hmf]
      exact ⟨s.marker_count_free_append hd' b, (s.get_base_free_append hd' c.id b).trans hbase.symm⟩
    · rw [hguards_b]
      refine ⟨?_, rfl⟩
      rw [HelpChatServerState.status_marker_count, hF, hB, hS]
      simp
    · rw [hguards_s, hms]
      exact ⟨s.marker_count_stale_append hd' b, (s.get_base_stale_append hd' c.id b).trans hbase.symm⟩
  -- exactly the free marker matches
  · have hbase : s.get_base_channel_name c = strDrop c.name s.free_prefix.length := by
      simp [HelpChatServerState.get_base_channel_name,
        HelpChatServerState.is_channel_free_def, hF]
    set b := strDrop c.name s.free_prefix.length with hb
    have hname : c.name = s.free_prefix ++ b := startsWith_eq_append hF
    have hguards_f : s.mark_channel_free c = (false, c, []) := by
      simp [HelpChatServerState.mark_channel_free,
        HelpChatServerState.is_channel_busy_def, HelpChatServerState.is_channel_stale_def,
        hB, hS]
    have hguards_b : s.mark_channel_busy c = s.mark_channel c s.busy_prefix := by
      simp [HelpChatServerState.mark_channel_busy,
        HelpChatServerState.is_channel_free_def, HelpChatServerState.is_channel_stale_def,
        hF, hS]
    have hguards_s : s.mark_channel_stale c = s.mark_channel c s.stale_prefix := by
      simp [HelpChatServerState.mark_channel_stale,
        HelpChatServerState.is_channel_free_def, HelpChatServerState.is_channel_busy_def,
        hF, hB]
    have hmb := s.mark_channel_of_base c s.busy_prefix b hbase
      (by rw [hname]; exact append_ne_append b (string_ne_of_not_pfx d2))
    have hms := s.mark_channel_of_base c s.stale_prefix b hbase
      (by rw [hname]; exact append_ne_append b (string_ne_of_not_pfx d4))
    refine ⟨?_, ?_, ?_⟩
    · rw [hguards_f]
      refine ⟨?_, rfl⟩
      rw [HelpChatServerState.status_marker_count, hF, hB, hS]
      simp
    · rw [hguards_b, hmb]
      exact ⟨s.marker_count_busy_append hd' b, (s.get_base_busy_append hd' c.id b).trans hbase.symm⟩
    · rw [hguards_s, hms]
      exact ⟨s.marker_count_stale_append hd' b, (s.get_base_stale_append hd' c.id b).trans hbase.symm⟩

/-- Witness for the amended claim C1 at a concrete busy channel. -/
theorem claim_C1_amended_witness :
    defaultState.distinct_markers ∧
    defaultState.status_marker_count "💬alpha" = 1 ∧
    ((defaultState.status_marker_count
        (defaultState.mark_channel_free ⟨1, "💬alpha"⟩).2.1.name = 1 ∧
      defaultState.get_base_channel_name (defaultState.mark_channel_free ⟨1, "💬alpha"⟩).2.1 =
        defaultState.get_base_channel_name ⟨1, "💬alpha"⟩) ∧
    (defaultState.status_marker_count
        (defaultState.mark_channel_busy ⟨1, "💬alpha"⟩).2.1.name = 1 ∧
      defaultState.get_base_channel_name (defaultState.mark_channel_busy ⟨1, "💬alpha"⟩).2.1 =
        defaultState.get_base_channel_name ⟨1, "💬alpha"⟩) ∧
    (defaultState.status_marker_count
        (defaultState.mark_channel_stale ⟨1, "💬alpha"⟩).2.1.name = 1 ∧
      defaultState.get_base_channel_name (defaultState.mark_channel_stale ⟨1, "💬alpha"⟩).2.1 =
        defaultState.get_base_channel_name ⟨1, "💬alpha"⟩)) :=
  ⟨by decide, by decide, claim_C1_amended defaultState ⟨1, "💬alpha"⟩ (by decide) (by decide)⟩

/-! ### Claim C5 -/

/-- Claim C5 counterexample: with the default markers, requesting the busy
status for a managed channel whose name is marker-free issues no rename call
(and no effect at all), although the computed target name (busy marker plus
base name) differs from the current name; so "rename iff target differs"
fails as stated. -/
theorem claim_C5_counterexample :
    defaultState.busy_prefix ++ defaultState.get_base_channel_name ⟨7, "plain"⟩ ≠
      ("plain" : String) ∧
    (defaultState.mark_channel_busy ⟨7, "plain"⟩).1 = false ∧
    (defaultState.mark_channel_busy ⟨7, "plain"⟩).2.2 = [] := by
  refine ⟨by decide, by decide, by decide⟩

/-- Claim C5 (amended): `mark_channel` issues a rename (and exactly one
edit-channel call) iff the computed target name differs from the current
name; and for a channel whose name carries exactly one status marker,
requesting the status the channel already has is a complete no-op of the
corresponding transition operation, so it never issues a rename call. -/
theorem claim_C5_amended (s : HelpChatServerState) (c : Channel) (m : String)
    (h1 : s.status_marker_count c.name = 1) :
    ((s.mark_channel c m).1 = true ↔
      m ++ s.get_base_channel_name c ≠ c.name) ∧
    ((s.mark_channel c m).2.2 ≠ [] ↔
      m ++ s.get_base_channel_name c ≠ c.name) ∧
    (s.is_channel_free c = true → s.mark_channel_free c = (false, c, [])) ∧
    (s.is_channel_busy c = true → s.mark_channel_busy c = (false, c, [])) ∧
    (s.is_channel_stale c = true → s.mark_channel_stale c = (false, c, [])) := by
  rw [HelpChatServerState.status_marker_count] at h1
  refine ⟨?_, ?_, ?_, ?_, ?_⟩
  · by_cases hne : m ++ s.get_base_channel_name c = c.name
    · simp [HelpChatServerState.mark_channel, hne]
    · simp [HelpChatServerState.mark_channel, hne]
  · by_cases hne : m ++ s.get_base_channel_name c = c.name
    · simp [HelpChatServerState.mark_channel, hne]
    · simp [HelpChatServerState.mark_channel, hne]
  · intro hF
    rw [HelpChatServerState.is_channel_free_def] at hF
    have hB : strStartsWith c.name s.busy_prefix = false := by
      cases hB : strStartsWith c.name s.busy_prefix
      · rfl
      · rw [hF, hB] at h1; cases hS : strStartsWith c.name s.stale_prefix <;>
          rw [hS] at h1 <;> simp at h1
    have hS : strStartsWith c.name s.stale_prefix = false := by
      cases hS : strStartsWith c.name s.stale_prefix
      · rfl
      · rw [hF, hB, hS] at h1; simp at h1
    simp [HelpChatServerState.mark_channel_free,
      HelpChatServerState.is_channel_busy_def, HelpChatServerState.is_channel_stale_def,
      hB, hS]
  · intro hB
    rw [HelpChatServerState.is_channel_busy_def] at hB
    have hF : strStartsWith c.name s.free_prefix = false := by
      cases hF : strStartsWith c.name s.free_prefix
      · rfl
      · rw [hF, hB] at h1; cases hS : strStartsWith c.name s.stale_prefix <;>
          rw [hS] at h1 <;> simp at h1
    have hS : strStartsWith c.name s.stale_prefix = false := by
      cases hS : strStartsWith c.name s.stale_prefix
      · rfl
      · rw [hF, hB, hS] at h1; simp at h1
    simp [HelpChatServerState.mark_channel_busy,
      HelpChatServerState.is_channel_free_def, HelpChatServerState.is_channel_stale_def,
      hF, hS]
  · intro hS
    rw [HelpChatServerState.is_channel_stale_def] at hS
    have hF : strStartsWith c.name s.free_prefix = false := by
      cases hF : strStartsWith c.name s.free_prefix
      · rfl
      · rw [hF, hS] at h1; cases hB : strStartsWith c.name s.busy_prefix <;>
          rw [hB] at h1 <;> simp at h1
    have hB : strStartsWith c.name s.busy_prefix = false := by
      cases hB : strStartsWith c.name s.busy_prefix
      · rfl
      · rw [hF, hB, hS] at h1; simp at h1
    simp [HelpChatServerState.mark_channel_stale,
      HelpChatServerState.is_channel_free_def, HelpChatServerState.is_channel_busy_def,
      hF, hB]

/-- Witness for the amended claim C5 at a concrete busy channel and the busy
marker itself. -/
theorem claim_C5_amended_witness :
    defaultState.status_marker_count "💬alpha" = 1 ∧
    (((defaultState.mark_channel ⟨1, "💬alpha"⟩ "💬").1 = true ↔
      "💬" ++ defaultState.get_base_channel_name ⟨1, "💬alpha"⟩ ≠
        Channel.name ⟨1, "💬alpha"⟩) ∧
    ((defaultState.mark_channel ⟨1, "💬alpha"⟩ "💬").2.2 ≠ [] ↔
      "💬" ++ defaultState.get_base_channel_name ⟨1, "💬alpha"⟩ ≠
        Channel.name ⟨1, "💬alpha"⟩) ∧
    (defaultState.is_channel_free ⟨1, "💬alpha"⟩ = true →
      defaultState.mark_channel_free ⟨1, "💬alpha"⟩ = (false, ⟨1, "💬alpha"⟩, [])) ∧
    (defaultState.is_channel_busy ⟨1, "💬alpha"⟩ = true →
      defaultState.mark_channel_busy ⟨1, "💬alpha"⟩ = (false, ⟨1, "💬alpha"⟩, [])) ∧
    (defaultState.is_channel_stale ⟨1, "💬alpha"⟩ = true →
      defaultState.mark_channel_stale ⟨1, "💬alpha"⟩ = (false, ⟨1, "💬alpha"⟩, []))) :=
  ⟨by decide, claim_C5_amended defaultState ⟨1, "💬alpha"⟩ "💬" (by decide)⟩

/-! ### Claim C4 -/

theorem poll_channels_config (s : HelpChatServerState) (now : Nat) (latest : Nat → Nat) :
    (s.poll_channels now latest).1.last_polled = s.last_polled ∧
    (s.poll_channels now latest).1.seconds_to_poll = s.seconds_to_poll :=
  ⟨rfl, rfl⟩

theorem maybe_poll_channels_config (s : HelpChatServerState) (now : Nat)
    (latest : Nat → Nat) :
    (s.maybe_poll_channels now latest).1.last_polled =
      (if now > s.last_polled + s.seconds_to_poll then now else s.last_polled) ∧
    (s.maybe_poll_channels now latest).1.seconds_to_poll = s.seconds_to_poll := by
  by_cases h : now > s.last_polled + s.seconds_to_poll
  · simp [HelpChatServerState.maybe_poll_channels, HelpChatServerState.poll_channels, h]
  · simp [HelpChatServerState.maybe_poll_channels, h]

/-- Claim C4: over any stream of inbound events, consecutive sweep runs are
separated by more than the configured poll interval, and the first sweep runs
only once more than the interval has passed since the recorded last-sweep
timestamp; so the sweep is never invoked more than once per poll interval,
however frequently events arrive. -/
theorem claim_C4 (s : HelpChatServerState) (latest : Nat → Nat) (ts : List Nat) :
    List.Chain (fun a b => a + s.seconds_to_poll < b) s.last_polled
      (HelpChatServerState.run_events latest s ts).2 := by
  induction ts generalizing s with
  | nil => exact List.Chain.nil
  | cons t ts ih =>
    have hconf := maybe_poll_channels_config s t latest
    simp only [HelpChatServerState.run_events]
    have hrec := ih (s.maybe_poll_channels t latest).1
    rw [hconf.1, hconf.2] at hrec
    by_cases h : t > s.last_polled + s.seconds_to_poll
    · rw [if_pos h]
      rw [if_pos h] at hrec
      exact List.Chain.cons h hrec
    · rw [if_neg h]
      rw [if_neg h] at hrec
      exact hrec

/-! ### Claim C3 -/

theorem startsWith_unique {n p q : String} (hp : strStartsWith n p = true)
    (hpq : ¬ p.data <+: q.data) (hqp : ¬ q.data <+: p.data) :
    strStartsWith n q = false := by
  cases hq : strStartsWith n q
  · rfl
  · exfalso
    rcases List.prefix_or_prefix_of_prefix (strStartsWith_iff.mp hq)
      (strStartsWith_iff.mp hp) with h | h
    · exact hqp h
    · exact hpq h

/-- Claim C3: the sweep acts on every managed channel independently: a busy
channel older than the staleness threshold is replaced by its stale-marked
version, every other channel — busy within the threshold, free, or already
stale — is unchanged (so the sweep never moves a channel from free to
stale); and marking stale really produces a stale name (stale marker plus
unchanged base name). -/
theorem claim_C3 (s : HelpChatServerState) (now : Nat) (latest : Nat → Nat) :
    ((s.poll_channels now latest).1.channels = s.channels.map (fun c =>
      if s.is_channel_busy c = true ∧ now > latest c.id + s.seconds_until_stale then
        (s.mark_channel_stale c).2.1
      else c)) ∧
    (∀ c : Channel, s.distinct_markers → s.is_channel_busy c = true →
      now > latest c.id + s.seconds_until_stale →
      (s.mark_channel_stale c).2.1.name =
        s.stale_prefix ++ s.get_base_channel_name c ∧
      s.is_channel_stale (s.mark_channel_stale c).2.1 = true) ∧
    (∀ c : Channel, s.distinct_markers → s.is_channel_free c = true →
      (if s.is_channel_busy c = true ∧ now > latest c.id + s.seconds_until_stale then
        (s.mark_channel_stale c).2.1
      else c) = c) ∧
    (∀ c : Channel, s.is_channel_busy c = false →
      (if s.is_channel_busy c = true ∧ now > latest c.id + s.seconds_until_stale then
        (s.mark_channel_stale c).2.1
      else c) = c) := by
  refine ⟨?_, ?_, ?_, ?_⟩
  · simp only [HelpChatServerState.poll_channels, List.map_map]
    apply List.map_congr_left
    intro c _
    by_cases hB : s.is_channel_busy c = true
    · by_cases hA : now > latest c.id + s.seconds_until_stale
      · simp [hB, hA]
      · simp [hB, hA]
    · rw [Bool.not_eq_true] at hB
      simp [hB]
  · intro c hd hB hA
    obtain ⟨d1, d2, d3, d4, d5, d6⟩ := hd
    rw [HelpChatServerState.is_channel_busy_def] at hB
    have hF : strStartsWith c.name s.free_prefix = false := startsWith_unique hB d2 d1
    have hbase : s.get_base_channel_name c = strDrop c.name s.busy_prefix.length := by
      simp [HelpChatServerState.get_base_channel_name,
        HelpChatServerState.is_channel_free_def, HelpChatServerState.is_channel_busy_def,
        hF, hB]
    have hname : c.name = s.busy_prefix ++ strDrop c.name s.busy_prefix.length :=
      startsWith_eq_append hB
    have hms := s.mark_channel_of_base c s.stale_prefix
      (strDrop c.name s.busy_prefix.length) hbase
      (by nth_rewrite 2 [hname]
          exact append_ne_append _ (string_ne_of_not_pfx d6))
    have hguard : s.mark_channel_stale c = s.mark_channel c s.stale_prefix := by
      simp [HelpChatServerState.mark_channel_stale,
        HelpChatServerState.is_channel_busy_def, hB]
    rw [hguard, hms, hbase]
    exact ⟨rfl, by
      rw [HelpChatServerState.is_channel_stale_def]
      exact strStartsWith_append s.stale_prefix _⟩
  · intro c hd hF
    obtain ⟨d1, d2, d3, d4, d5, d6⟩ := hd
    rw [HelpChatServerState.is_channel_free_def] at hF
    have hB : strStartsWith c.name s.busy_prefix = false := startsWith_unique hF d1 d2
    simp [HelpChatServerState.is_channel_busy_def, hB]
  · intro c hB
    simp [hB]

/-- Witness for claim C3: with the default thresholds, a busy channel whose
latest message is 10000 seconds old is swept to a stale name. -/
theorem claim_C3_witness :
    defaultState.distinct_markers ∧
    defaultState.is_channel_busy ⟨1, "💬alpha"⟩ = true ∧
    10000 > 0 + defaultState.seconds_until_stale ∧
    ((defaultState.mark_channel_stale ⟨1, "💬alpha"⟩).2.1.name =
        defaultState.stale_prefix ++ defaultState.get_base_channel_name ⟨1, "💬alpha"⟩ ∧
      defaultState.is_channel_stale
        (defaultState.mark_channel_stale ⟨1, "💬alpha"⟩).2.1 = true) :=
  ⟨by decide, by decide, by decide,
    (claim_C3 defaultState 10000 (fun _ => 0)).2.1 ⟨1, "💬alpha"⟩ (by decide) (by decide)
      (by decide)⟩

/-! ### Claim C6 -/

theorem find?_first {α : Type} (p : α → Bool) (l : List α) (a : α)
    (h : l.find? p = some a) :
    ∃ i : Nat, l[i]? = some a ∧ ∀ j : Nat, j < i → ∀ x, l[j]? = some x → p x = false := by
  induction l with
  | nil => simp [List.find?] at h
  | cons b l ih =>
    cases hb : p b
    · rw [List.find?_cons, hb] at h
      obtain ⟨i, h1, h3⟩ := ih h
      refine ⟨i + 1, by simpa using h1, ?_⟩
      intro j hj x hx
      cases j with
      | zero =>
        rw [List.getElem?_cons_zero] at hx
        cases hx
        exact hb
      | succ j =>
        rw [List.getElem?_cons_succ] at hx
        exact h3 j (by omega) x hx
    · rw [List.find?_cons, hb] at h
      cases h
      exact ⟨0, List.getElem?_cons_zero,
        fun j hj x hx => absurd hj (Nat.not_lt_zero j)⟩

/-- Claim C6: at relocate time, when some managed channel is free, the
redirect notice is built from the with-destination template around the first
free channel in configured order and the moderation log entry names both
origin and destination; when no channel is free, the notice is built from
the without-destination template and the log entry names only the origin;
in neither case does the redirect issue a rename (status change). -/
theorem claim_C6 (s : HelpChatServerState) (message : Message) (reactor : Member) :
    (∀ t : Channel, s.get_free_channel = some t →
      (s.is_channel_free t = true ∧
        ∃ i : Nat, s.channels[i]? = some t ∧
          ∀ j : Nat, j < i → ∀ x, s.channels[j]? = some x →
            s.is_channel_free x = false) ∧
      s.redirect message reactor =
        [Effect.modLog reactor
          ("relocated " ++ message.author.mention ++ " from " ++
            message.channel.mention ++ " to " ++ t.mention) ":arrow_right:",
         Effect.sendMessage message.channel.id
          (renderTemplate s.message_with_channel message.author reactor
            message.channel (some t))]) ∧
    (s.get_free_channel = none →
      s.redirect message reactor =
        [Effect.modLog reactor
          ("relocated " ++ message.author.mention ++ " from " ++
            message.channel.mention) ":arrow_right:",
         Effect.sendMessage message.channel.id
          (renderTemplate s.message_without_channel message.author reactor
            message.channel none)]) ∧
    (∀ i n, Effect.editChannel i n ∉ s.redirect message reactor) := by
  refine ⟨?_, ?_, ?_⟩
  · intro t ht
    refine ⟨⟨List.find?_some ht, find?_first _ _ _ ht⟩, ?_⟩
    simp [HelpChatServerState.redirect, ht]
  · intro ht
    simp [HelpChatServerState.redirect, ht]
  · intro i n hmem
    cases ht : s.get_free_channel <;>
      simp [HelpChatServerState.redirect, ht] at hmem

/-- Concrete reactor for witnesses. -/
def reactor6 : Member := ⟨11, "bob#2"⟩

/-- Concrete relocated message for witnesses (origin channel id 3). -/
def msg6 : Message := ⟨500, ⟨10, "alice#1"⟩, ⟨3, "⏰gamma"⟩, "hi", some 1⟩

/-- A state with the default configuration and no free managed channel. -/
def noFreeState : HelpChatServerState := { defaultState with channels := [⟨1, "💬alpha"⟩] }

/-- Witness for claim C6, in both directions: with the default state (whose
first free channel is the second managed channel) and with a state that has
no free channel. -/
theorem claim_C6_witness :
    (defaultState.get_free_channel = some ⟨2, "✅beta"⟩ ∧
      ((defaultState.is_channel_free ⟨2, "✅beta"⟩ = true ∧
        ∃ i : Nat, defaultState.channels[i]? = some ⟨2, "✅beta"⟩ ∧
          ∀ j : Nat, j < i → ∀ x, defaultState.channels[j]? = some x →
            defaultState.is_channel_free x = false) ∧
      defaultState.redirect msg6 reactor6 =
        [Effect.modLog reactor6
          ("relocated " ++ msg6.author.mention ++ " from " ++
            msg6.channel.mention ++ " to " ++ Channel.mention ⟨2, "✅beta"⟩)
          ":arrow_right:",
         Effect.sendMessage msg6.channel.id
          (renderTemplate defaultState.message_with_channel msg6.author reactor6
            msg6.channel (some ⟨2, "✅beta"⟩))])) ∧
    (noFreeState.get_free_channel = none ∧
      noFreeState.redirect msg6 reactor6 =
        [Effect.modLog reactor6
          ("relocated " ++ msg6.author.mention ++ " from " ++ msg6.channel.mention)
          ":arrow_right:",
         Effect.sendMessage msg6.channel.id
          (renderTemplate noFreeState.message_without_channel msg6.author reactor6
            msg6.channel none)]) :=
  ⟨⟨by decide, (claim_C6 defaultState msg6 reactor6).1 ⟨2, "✅beta"⟩ (by decide)⟩,
   ⟨by decide, (claim_C6 noFreeState msg6 reactor6).2.1 (by decide)⟩⟩

/-! ### Claim C9 -/

/-- Claim C9: the entry-point handlers drop events that are the bot's own
(message authored by the bot, reaction placed by the bot) and direct-message
events (message without a server; reactor that is not a server member): the
extension state is returned unchanged and no external call is recorded, so
no triage logic runs. -/
theorem claim_C9 (hc : HelpChat) (message : Message) (reaction : Reaction)
    (reactor : Member) (reactor_is_member : Bool) (reactor_server : Nat)
    (is_latest : Bool) (now : Nat) (latest : Nat → Nat) :
    (message.author.id = hc.bot_user_id →
      hc.on_message message now latest = (hc, [])) ∧
    (message.server = none →
      hc.on_message message now latest = (hc, [])) ∧
    (reactor.id = hc.bot_user_id →
      hc.on_reaction_add reaction reactor reactor_is_member reactor_server
        is_latest now latest = (hc, [])) ∧
    (reactor_is_member = false →
      hc.on_reaction_add reaction reactor reactor_is_member reactor_server
        is_latest now latest = (hc, [])) := by
  refine ⟨?_, ?_, ?_, ?_⟩
  · intro h
    rw [HelpChat.on_message]
    cases hs : message.server with
    | none => rfl
    | some sid =>
      cases hg : hc.get_state sid with
      | none => simp [hg]
      | some st => simp [hg, h]
  · intro h
    rw [HelpChat.on_message, h]
  · intro h
    rw [HelpChat.on_reaction_add]
    cases reactor_is_member with
    | false => rfl
    | true =>
      cases hg : hc.get_state reactor_server with
      | none => simp [hg]
      | some st => simp [hg, h]
  · intro h
    rw [HelpChat.on_reaction_add, h]
    rfl

/-- A concrete extension object for witnesses: bot user 99, one server. -/
def hc9 : HelpChat := ⟨99, [(1, defaultState)]⟩

/-- A message authored by the bot itself. -/
def botMsg : Message := ⟨501, ⟨99, "bot#0"⟩, ⟨1, "💬alpha"⟩, "hi", some 1⟩

/-- A direct message (no server attached). -/
def dmMsg : Message := ⟨502, ⟨10, "alice#1"⟩, ⟨1, "💬alpha"⟩, "hi", none⟩

/-- A concrete reaction event for witnesses. -/
def reaction9 : Reaction := ⟨"✅", 1, dmMsg⟩

/-- Witness for claim C9 on all four guards. -/
theorem claim_C9_witness :
    (Message.author botMsg).id = hc9.bot_user_id ∧
    Message.server dmMsg = none ∧
    hc9.on_message botMsg 0 (fun _ => 0) = (hc9, []) ∧
    hc9.on_message dmMsg 0 (fun _ => 0) = (hc9, []) ∧
    hc9.on_reaction_add reaction9 ⟨99, "bot#0"⟩ true 1 false 0 (fun _ => 0) = (hc9, []) ∧
    hc9.on_reaction_add reaction9 ⟨10, "alice#1"⟩ false 1 false 0 (fun _ => 0) = (hc9, []) :=
  ⟨by decide, by decide,
    (claim_C9 hc9 botMsg reaction9 ⟨99, "bot#0"⟩ true 1 false 0 (fun _ => 0)).1 (by decide),
    (claim_C9 hc9 dmMsg reaction9 ⟨99, "bot#0"⟩ true 1 false 0 (fun _ => 0)).2.1 (by decide),
    (claim_C9 hc9 dmMsg reaction9 ⟨99, "bot#0"⟩ true 1 false 0 (fun _ => 0)).2.2.1 (by decide),
    (claim_C9 hc9 dmMsg reaction9 ⟨10, "alice#1"⟩ false 1 false 0 (fun _ => 0)).2.2.2 (by decide)⟩

/-! ### Sweep characterization helpers -/

theorem poll_channels_channels (s : HelpChatServerState) (now : Nat) (latest : Nat → Nat) :
    (s.poll_channels now latest).1.channels = s.channels.map (fun c =>
      if s.is_channel_busy c = true ∧ now > latest c.id + s.seconds_until_stale then
        (s.mark_channel_stale c).2.1
      else c) := by
  simp only [HelpChatServerState.poll_channels, List.map_map]
  apply List.map_congr_left
  intro c _
  by_cases hB : s.is_channel_busy c = true
  · by_cases hA : now > latest c.id + s.seconds_until_stale
    · simp [hB, hA]
    · simp [hB, hA]
  · rw [Bool.not_eq_true] at hB
    simp [hB]

theorem mark_channel_stale_effects (s : HelpChatServerState) (c : Channel) (e : Effect)
    (he : e ∈ (s.mark_channel_stale c).2.2) :
    e = Effect.editChannel c.id (s.stale_prefix ++ s.get_base_channel_name c) := by
  simp only [HelpChatServerState.mark_channel_stale, HelpChatServerState.mark_channel] at he
  split_ifs at he <;> simp_all

theorem poll_channels_effects (s : HelpChatServerState) (now : Nat) (latest : Nat → Nat)
    (e : Effect) (he : e ∈ (s.poll_channels now latest).2) :
    ∃ c ∈ s.channels, s.is_channel_busy c = true ∧
      e = Effect.editChannel c.id (s.stale_prefix ++ s.get_base_channel_name c) := by
  simp only [HelpChatServerState.poll_channels, List.map_map] at he
  rw [List.mem_flatten] at he
  obtain ⟨l, hl, hel⟩ := he
  rw [List.mem_map] at hl
  obtain ⟨c, hc, hcl⟩ := hl
  by_cases hB : s.is_channel_busy c = true
  · by_cases hA : now > latest c.id + s.seconds_until_stale
    · refine ⟨c, hc, hB, ?_⟩
      apply mark_channel_stale_effects
      have : l = (s.mark_channel_stale c).2.2 := by
        rw [← hcl]; simp [hB, hA]
      rw [← this]
      exact hel
    · exfalso
      have : l = [] := by rw [← hcl]; simp [hB, hA]
      rw [this] at hel
      exact absurd hel (List.not_mem_nil e)
  · exfalso
    rw [Bool.not_eq_true] at hB
    have : l = [] := by rw [← hcl]; simp [hB]
    rw [this] at hel
    exact absurd hel (List.not_mem_nil e)

theorem maybe_poll_effects (s : HelpChatServerState) (now : Nat) (latest : Nat → Nat)
    (e : Effect) (he : e ∈ (s.maybe_poll_channels now latest).2) :
    ∃ c ∈ s.channels, s.is_channel_busy c = true ∧
      e = Effect.editChannel c.id (s.stale_prefix ++ s.get_base_channel_name c) := by
  rw [HelpChatServerState.maybe_poll_channels] at he
  by_cases h : now > s.last_polled + s.seconds_to_poll
  · rw [if_pos h] at he
    exact poll_channels_effects { s with last_polled := now } now latest e he
  · rw [if_neg h] at he
    exact absurd he (List.not_mem_nil e)

theorem maybe_poll_preserves_not_busy (s : HelpChatServerState) (now : Nat)
    (latest : Nat → Nat) (c : Channel) (i : Nat) (hB : s.is_channel_busy c = false)
    (hi : s.channels[i]? = some c) :
    (s.maybe_poll_channels now latest).1.channels[i]? = some c := by
  rw [HelpChatServerState.maybe_poll_channels]
  by_cases h : now > s.last_polled + s.seconds_to_poll
  · rw [if_pos h, poll_channels_channels, List.getElem?_map, hi]
    have hB' : ({ s with last_polled := now } : HelpChatServerState).is_channel_busy c
        = false := hB
    simp [hB']
  · rw [if_neg h]
    exact hi

theorem maybe_poll_preserves_fresh (s : HelpChatServerState) (now : Nat)
    (latest : Nat → Nat) (c : Channel) (i : Nat)
    (hA : ¬ now > latest c.id + s.seconds_until_stale)
    (hi : s.channels[i]? = some c) :
    (s.maybe_poll_channels now latest).1.channels[i]? = some c := by
  rw [HelpChatServerState.maybe_poll_channels]
  by_cases h : now > s.last_polled + s.seconds_to_poll
  · rw [if_pos h, poll_channels_channels, List.getElem?_map, hi]
    simp only [Option.map_some]
    have hA' : ¬ latest c.id +
        ({ s with last_polled := now } : HelpChatServerState).seconds_until_stale < now := hA
    simp [hA']
  · rw [if_neg h]
    exact hi

theorem update_channel_self (s : HelpChatServerState) (c : Channel) :
    s.update_channel c c = s := by
  have h : ∀ x : Channel, (if x = c then c else x) = x := by
    intro x
    by_cases hx : x = c <;> simp [hx]
  simp [HelpChatServerState.update_channel, h]

/-! ### Claim C10 -/

/-- Claim C10: a resolve-marker-only message posted into a managed channel
that is neither busy nor stale (in particular one already free):
`mark_channel_free` reports no rename (the source's falsy `None`) and
produces no effect, and the whole `on_message` run records no moderation log
entry, issues no rename of that channel, and leaves the channel unchanged. -/
theorem claim_C10 (s : HelpChatServerState) (message : Message) (c : Channel)
    (now : Nat) (latest : Nat → Nat)
    (hch : message.channel = c)
    (hmem : c ∈ s.channels)
    (hms : message.content = s.resolve_emoji)
    (hB : s.is_channel_busy c = false)
    (hS : s.is_channel_stale c = false)
    (hid : ∀ x ∈ s.channels, x.id = c.id → x = c) :
    ((s.mark_channel_free c).1 = false ∧ (s.mark_channel_free c).2.2 = [] ∧
      (s.mark_channel_free c).2.1 = c) ∧
    (∀ (a : Member) (t ic : String),
      Effect.modLog a t ic ∉ (s.on_message message now latest).2) ∧
    (∀ n : String, Effect.editChannel c.id n ∉ (s.on_message message now latest).2) ∧
    (∀ i : Nat, s.channels[i]? = some c →
      (s.on_message message now latest).1.channels[i]? = some c) := by
  have hfree : s.mark_channel_free c = (false, c, []) := by
    simp [HelpChatServerState.mark_channel_free, hB, hS]
  have heq : s.on_message message now latest = s.maybe_poll_channels now latest := by
    simp only [HelpChatServerState.on_message, hch]
    rw [if_pos hmem, if_pos hms, hfree]
    simp [update_channel_self]
  refine ⟨⟨by rw [hfree], by rw [hfree], by rw [hfree]⟩, ?_, ?_, ?_⟩
  · intro a t ic hmm
    rw [heq] at hmm
    obtain ⟨x, hx, hbx, he⟩ := maybe_poll_effects s now latest _ hmm
    simp at he
  · intro n hmm
    rw [heq] at hmm
    obtain ⟨x, hx, hbx, he⟩ := maybe_poll_effects s now latest _ hmm
    rw [Effect.editChannel.injEq] at he
    have hxc : x = c := hid x hx (he.1.symm)
    rw [hxc] at hbx
    rw [hbx] at hB
    exact absurd hB (by simp)
  · intro i hi
    rw [heq]
    exact maybe_poll_preserves_not_busy s now latest c i hB hi

/-- A resolve-marker message into the free managed channel of the default
state. -/
def msg10 : Message := ⟨503, ⟨10, "alice#1"⟩, ⟨2, "✅beta"⟩, "✅", some 1⟩

/-- Witness for claim C10: the free channel of the default state receives a
resolve-marker message; nothing is renamed or logged. -/
theorem claim_C10_witness :
    (Message.channel msg10 = (⟨2, "✅beta"⟩ : Channel) ∧
      (⟨2, "✅beta"⟩ : Channel) ∈ defaultState.channels ∧
      Message.content msg10 = defaultState.resolve_emoji ∧
      defaultState.is_channel_busy ⟨2, "✅beta"⟩ = false ∧
      defaultState.is_channel_stale ⟨2, "✅beta"⟩ = false) ∧
    ((defaultState.mark_channel_free ⟨2, "✅beta"⟩).1 = false ∧
      (defaultState.mark_channel_free ⟨2, "✅beta"⟩).2.2 = [] ∧
      (defaultState.mark_channel_free ⟨2, "✅beta"⟩).2.1 = (⟨2, "✅beta"⟩ : Channel)) ∧
    (∀ i : Nat, defaultState.channels[i]? = some ⟨2, "✅beta"⟩ →
      (defaultState.on_message msg10 0 (fun _ => 0)).1.channels[i]? =
        some ⟨2, "✅beta"⟩) :=
  ⟨⟨by decide, by decide, by decide, by decide, by decide⟩,
    (claim_C10 defaultState msg10 ⟨2, "✅beta"⟩ 0 (fun _ => 0) (by decide) (by decide)
      (by decide) (by decide) (by decide) (by decide)).1,
    (claim_C10 defaultState msg10 ⟨2, "✅beta"⟩ 0 (fun _ => 0) (by decide) (by decide)
      (by decide) (by decide) (by decide) (by decide)).2.2.2⟩

/-! ### Claim C2 -/

/-- Claim C2: for a message arriving in a managed channel that carries exactly
one status marker (markers pairwise not prefixes of one another), and whose
latest message is within the staleness threshold (true on arrival, since the
arriving message is itself recent): if the content is exactly the resolve
marker and the channel is busy or stale, `on_message` renames the channel to
free (free marker plus base name) and records the "resolved" moderation log
entry; any other content leaves the channel busy-marked, as a no-op when the
channel is already busy. -/
theorem claim_C2 (s : HelpChatServerState) (message : Message) (c : Channel)
    (now : Nat) (latest : Nat → Nat)
    (hd : s.distinct_markers)
    (hone : s.status_marker_count c.name = 1)
    (hch : message.channel = c)
    (hmem : c ∈ s.channels)
    (hfresh : ¬ now > latest c.id + s.seconds_until_stale) :
    (message.content = s.resolve_emoji →
      (s.is_channel_busy c = true ∨ s.is_channel_stale c = true) →
      (∀ i : Nat, s.channels[i]? = some c →
        (s.on_message message now latest).1.channels[i]? =
          some ⟨c.id, s.free_prefix ++ s.get_base_channel_name c⟩) ∧
      Effect.modLog message.author ("resolved " ++ c.mention) ":white_check_mark:" ∈
        (s.on_message message now latest).2) ∧
    (message.content ≠ s.resolve_emoji →
      (∀ i : Nat, s.channels[i]? = some c →
        (s.on_message message now latest).1.channels[i]? =
          some ⟨c.id, s.busy_prefix ++ s.get_base_channel_name c⟩) ∧
      (s.is_channel_busy c = true →
        s.mark_channel_busy c = (false, c, []) ∧
        (⟨c.id, s.busy_prefix ++ s.get_base_channel_name c⟩ : Channel) = c)) := by
  obtain ⟨d1, d2, d3, d4, d5, d6⟩ := hd
  constructor
  · -- resolve-marker content in a busy or stale channel
    intro hcontent hstatus
    have hmf : s.mark_channel_free c =
        (true, ⟨c.id, s.free_prefix ++ s.get_base_channel_name c⟩,
          [Effect.editChannel c.id (s.free_prefix ++ s.get_base_channel_name c)]) := by
      rcases hstatus with hB | hS
      · rw [HelpChatServerState.is_channel_busy_def] at hB
        have hF := startsWith_unique hB d2 d1
        have hbase : s.get_base_channel_name c = strDrop c.name s.busy_prefix.length := by
          simp [HelpChatServerState.get_base_channel_name,
            HelpChatServerState.is_channel_free_def,
            HelpChatServerState.is_channel_busy_def, hF, hB]
        have hname := startsWith_eq_append hB
        have hguard : s.mark_channel_free c = s.mark_channel c s.free_prefix := by
          simp [HelpChatServerState.mark_channel_free,
            HelpChatServerState.is_channel_busy_def, hB]
        rw [hguard, hbase]
        exact s.mark_channel_of_base c s.free_prefix _ hbase
          (by nth_rewrite 2 [hname]
              exact append_ne_append _ (string_ne_of_not_pfx d1))
      · rw [HelpChatServerState.is_channel_stale_def] at hS
        have hF := startsWith_unique hS d4 d3
        have hB := startsWith_unique hS d6 d5
        have hbase : s.get_base_channel_name c = strDrop c.name s.stale_prefix.length := by
          simp [HelpChatServerState.get_base_channel_name,
            HelpChatServerState.is_channel_free_def,
            HelpChatServerState.is_channel_busy_def,
            HelpChatServerState.is_channel_stale_def, hF, hB, hS]
        have hname := startsWith_eq_append hS
        have hguard : s.mark_channel_free c = s.mark_channel c s.free_prefix := by
          simp [HelpChatServerState.mark_channel_free,
            HelpChatServerState.is_channel_busy_def,
            HelpChatServerState.is_channel_stale_def, hB, hS]
        rw [hguard, hbase]
        exact s.mark_channel_of_base c s.free_prefix _ hbase
          (by nth_rewrite 2 [hname]
              exact append_ne_append _ (string_ne_of_not_pfx d3))
    have heq : s.on_message message now latest =
        (((s.update_channel c ⟨c.id, s.free_prefix ++ s.get_base_channel_name c⟩).maybe_poll_channels
            now latest).1,
          [Effect.editChannel c.id (s.free_prefix ++ s.get_base_channel_name c),
            Effect.modLog message.author ("resolved " ++ c.mention) ":white_check_mark:"] ++
          ((s.update_channel c ⟨c.id, s.free_prefix ++ s.get_base_channel_name c⟩).maybe_poll_channels
            now latest).2) := by
      simp only [HelpChatServerState.on_message, hch]
      rw [if_pos hmem, if_pos hcontent, hmf]
      simp
    constructor
    · intro i hi
      rw [heq]
      have hi2 : (s.update_channel c
          ⟨c.id, s.free_prefix ++ s.get_base_channel_name c⟩).channels[i]? =
          some ⟨c.id, s.free_prefix ++ s.get_base_channel_name c⟩ := by
        simp only [HelpChatServerState.update_channel]
        rw [List.getElem?_map, hi]
        simp
      have hnb : (s.update_channel c
          ⟨c.id, s.free_prefix ++ s.get_base_channel_name c⟩).is_channel_busy
          ⟨c.id, s.free_prefix ++ s.get_base_channel_name c⟩ = false :=
        startsWith_append_other _ d1 d2
      exact maybe_poll_preserves_not_busy _ now latest _ i hnb hi2
    · rw [heq]
      simp
  · -- any other content
    intro hcontent
    rw [HelpChatServerState.status_marker_count] at hone
    cases hF : strStartsWith c.name s.free_prefix <;>
      cases hB : strStartsWith c.name s.busy_prefix <;>
        cases hS : strStartsWith c.name s.stale_prefix <;>
          rw [hF, hB, hS] at hone <;> simp at hone
    · -- stale only
      have hbase : s.get_base_channel_name c = strDrop c.name s.stale_prefix.length := by
        simp [HelpChatServerState.get_base_channel_name,
          HelpChatServerState.is_channel_free_def,
          HelpChatServerState.is_channel_busy_def,
          HelpChatServerState.is_channel_stale_def, hF, hB, hS]
      have hname := startsWith_eq_append hS
      have hmb : s.mark_channel_busy c =
          (true, ⟨c.id, s.busy_prefix ++ s.get_base_channel_name c⟩,
            [Effect.editChannel c.id (s.busy_prefix ++ s.get_base_channel_name c)]) := by
        have hguard : s.mark_channel_busy c = s.mark_channel c s.busy_prefix := by
          simp [HelpChatServerState.mark_channel_busy,
            HelpChatServerState.is_channel_free_def,
            HelpChatServerState.is_channel_stale_def, hF, hS]
        rw [hguard, hbase]
        exact s.mark_channel_of_base c s.busy_prefix _ hbase
          (by nth_rewrite 2 [hname]
              exact append_ne_append _ (string_ne_of_not_pfx d5))
      have heq : s.on_message message now latest =
          (((s.update_channel c ⟨c.id, s.busy_prefix ++ s.get_base_channel_name c⟩).maybe_poll_channels
              now latest).1,
            [Effect.editChannel c.id (s.busy_prefix ++ s.get_base_channel_name c)] ++
            ((s.update_channel c ⟨c.id, s.busy_prefix ++ s.get_base_channel_name c⟩).maybe_poll_channels
              now latest).2) := by
        simp only [HelpChatServerState.on_message, hch]
        rw [if_pos hmem, if_neg hcontent, hmb]
      constructor
      · intro i hi
        rw [heq]
        have hi2 : (s.update_channel c
            ⟨c.id, s.busy_prefix ++ s.get_base_channel_name c⟩).channels[i]? =
            some ⟨c.id, s.busy_prefix ++ s.get_base_channel_name c⟩ := by
          simp only [HelpChatServerState.update_channel]
          rw [List.getElem?_map, hi]
          simp
        exact maybe_poll_preserves_fresh _ now latest _ i hfresh hi2
      · intro hBtrue
        rw [HelpChatServerState.is_channel_busy_def, hB] at hBtrue
        exact absurd hBtrue (by simp)
    · -- busy only
      have hbase : s.get_base_channel_name c = strDrop c.name s.busy_prefix.length := by
        simp [HelpChatServerState.get_base_channel_name,
          HelpChatServerState.is_channel_free_def,
          HelpChatServerState.is_channel_busy_def, hF, hB]
      have hname := startsWith_eq_append hB
      have hceta : (⟨c.id, s.busy_prefix ++ s.get_base_channel_name c⟩ : Channel) = c := by
        rw [hbase, ← hname]
      have hmb0 : s.mark_channel_busy c = (false, c, []) := by
        simp [HelpChatServerState.mark_channel_busy,
          HelpChatServerState.is_channel_free_def,
          HelpChatServerState.is_channel_stale_def, hF, hS]
      have heq : s.on_message message now latest = s.maybe_poll_channels now latest := by
        simp only [HelpChatServerState.on_message, hch]
        rw [if_pos hmem, if_neg hcontent, hmb0]
        simp [update_channel_self]
      constructor
      · intro i hi
        rw [heq, hceta]
        exact maybe_poll_preserves_fresh s now latest c i hfresh hi
      · intro _
        exact ⟨hmb0, hceta⟩
    · -- free only
      have hbase : s.get_base_channel_name c = strDrop c.name s.free_prefix.length := by
        simp [HelpChatServerState.get_base_channel_name,
          HelpChatServerState.is_channel_free_def, hF]
      have hname := startsWith_eq_append hF
      have hmb : s.mark_channel_busy c =
          (true, ⟨c.id, s.busy_prefix ++ s.get_base_channel_name c⟩,
            [Effect.editChannel c.id (s.busy_prefix ++ s.get_base_channel_name c)]) := by
        have hguard : s.mark_channel_busy c = s.mark_channel c s.busy_prefix := by
          simp [HelpChatServerState.mark_channel_busy,
            HelpChatServerState.is_channel_free_def, hF]
        rw [hguard, hbase]
        exact s.mark_channel_of_base c s.busy_prefix _ hbase
          (by nth_rewrite 2 [hname]
              exact append_ne_append _ (string_ne_of_not_pfx d2))
      have heq : s.on_message message now latest =
          (((s.update_channel c ⟨c.id, s.busy_prefix ++ s.get_base_channel_name c⟩).maybe_poll_channels
              now latest).1,
            [Effect.editChannel c.id (s.busy_prefix ++ s.get_base_channel_name c)] ++
            ((s.update_channel c ⟨c.id, s.busy_prefix ++ s.get_base_channel_name c⟩).maybe_poll_channels
              now latest).2) := by
        simp only [HelpChatServerState.on_message, hch]
        rw [if_pos hmem, if_neg hcontent, hmb]
      constructor
      · intro i hi
        rw [heq]
        have hi2 : (s.update_channel c
            ⟨c.id, s.busy_prefix ++ s.get_base_channel_name c⟩).channels[i]? =
            some ⟨c.id, s.busy_prefix ++ s.get_base_channel_name c⟩ := by
          simp only [HelpChatServerState.update_channel]
          rw [List.getElem?_map, hi]
          simp
        exact maybe_poll_preserves_fresh _ now latest _ i hfresh hi2
      · intro hBtrue
        rw [HelpChatServerState.is_channel_busy_def, hB] at hBtrue
        exact absurd hBtrue (by simp)

/-- A resolve-marker message into the busy managed channel of the default
state. -/
def msg2a : Message := ⟨504, ⟨10, "alice#1"⟩, ⟨1, "💬alpha"⟩, "✅", some 1⟩

/-- An ordinary message into the busy managed channel of the default state. -/
def msg2b : Message := ⟨505, ⟨10, "alice#1"⟩, ⟨1, "💬alpha"⟩, "hello", some 1⟩

/-- Witness for claim C2: the busy channel of the default state is freed and
logged by a resolve-marker message, and left busy as a no-op by an ordinary
message. -/
theorem claim_C2_witness :
    (defaultState.distinct_markers ∧
      defaultState.status_marker_count "💬alpha" = 1 ∧
      (⟨1, "💬alpha"⟩ : Channel) ∈ defaultState.channels ∧
      ¬ (0 : Nat) > 0 + defaultState.seconds_until_stale) ∧
    ((∀ i : Nat, defaultState.channels[i]? = some ⟨1, "💬alpha"⟩ →
        (defaultState.on_message msg2a 0 (fun _ => 0)).1.channels[i]? =
          some ⟨1, defaultState.free_prefix ++
            defaultState.get_base_channel_name ⟨1, "💬alpha"⟩⟩) ∧
      Effect.modLog msg2a.author ("resolved " ++ Channel.mention ⟨1, "💬alpha"⟩)
          ":white_check_mark:" ∈ (defaultState.on_message msg2a 0 (fun _ => 0)).2) ∧
    ((∀ i : Nat, defaultState.channels[i]? = some ⟨1, "💬alpha"⟩ →
        (defaultState.on_message msg2b 0 (fun _ => 0)).1.channels[i]? =
          some ⟨1, defaultState.busy_prefix ++
            defaultState.get_base_channel_name ⟨1, "💬alpha"⟩⟩) ∧
      (defaultState.is_channel_busy ⟨1, "💬alpha"⟩ = true →
        defaultState.mark_channel_busy ⟨1, "💬alpha"⟩ = (false, ⟨1, "💬alpha"⟩, []) ∧
        (⟨1, defaultState.busy_prefix ++
          defaultState.get_base_channel_name ⟨1, "💬alpha"⟩⟩ : Channel) =
            ⟨1, "💬alpha"⟩)) :=
  ⟨⟨by decide, by decide, by decide, by decide⟩,
    (claim_C2 defaultState msg2a ⟨1, "💬alpha"⟩ 0 (fun _ => 0) (by decide) (by decide)
      (by decide) (by decide) (by decide)).1 (by decide) (Or.inl (by decide)),
    (claim_C2 defaultState msg2b ⟨1, "💬alpha"⟩ 0 (fun _ => 0) (by decide) (by decide)
      (by decide) (by decide) (by decide)).2 (by decide)⟩

/-! ### Claim C7 -/

/-- A resolve-emoji reaction on a message in the busy managed channel. -/
def rx7 : Reaction := ⟨"✅", 1, msg2b⟩

/-- Claim C7 counterexample: in the default state resolve-by-reaction is
disabled, yet a resolve-emoji reaction still causes a status transition:
the handler's trailing rate-limited sweep marks the aged busy channel
stale. -/
theorem claim_C7_counterexample :
    defaultState.resolve_with_reaction = false ∧
    (defaultState.on_reaction rx7 reactor6 true 10000 (fun _ => 0)).1.channels =
      [⟨1, "⏰alpha"⟩, ⟨2, "✅beta"⟩] ∧
    (defaultState.on_reaction rx7 reactor6 true 10000 (fun _ => 0)).1.channels ≠
      defaultState.channels := by
  refine ⟨by decide, by decide, by decide⟩

theorem modLog_icon_ne (a b : Member) (t u : String) :
    Effect.modLog a t ":white_check_mark:" ≠ Effect.modLog b u ":arrow_right:" := by
  intro h
  injection h with h1 h2 h3
  exact absurd h3 (by decide)

theorem redirect_no_resolve_log (s : HelpChatServerState) (message : Message)
    (reactor : Member) (a : Member) (t : String) :
    Effect.modLog a t ":white_check_mark:" ∉ s.redirect message reactor := by
  intro hmm
  cases ht : s.get_free_channel with
  | none =>
    simp only [HelpChatServerState.redirect, ht, List.mem_cons,
      List.not_mem_nil, or_false] at hmm
    rcases hmm with hmm | hmm
    · exact modLog_icon_ne _ _ _ _ hmm
    · exact Effect.noConfusion hmm
  | some t0 =>
    simp only [HelpChatServerState.redirect, ht, List.mem_cons,
      List.not_mem_nil, or_false] at hmm
    rcases hmm with hmm | hmm
    · exact modLog_icon_ne _ _ _ _ hmm
    · exact Effect.noConfusion hmm

/-- Claim C7 (amended): a resolve reaction transitions a channel toward free
and records the "resolved" moderation log entry only when the
resolve-by-reaction flag is enabled, the reacted channel is managed, and the
reacted message is the channel's latest; when any of these fails, the
reaction causes no status transition beyond the busy-to-stale renames of the
rate-limited staleness sweep that the handler triggers afterwards, and no
resolve log entry is recorded. -/
theorem claim_C7_amended (s : HelpChatServerState) (reaction : Reaction)
    (reactor : Member) (is_latest : Bool) (now : Nat) (latest : Nat → Nat)
    (hfail : ¬ (reaction.emoji = s.resolve_emoji ∧ s.resolve_with_reaction = true ∧
      reaction.message.channel ∈ s.channels ∧ is_latest = true)) :
    (s.on_reaction reaction reactor is_latest now latest).1 =
      (s.maybe_poll_channels now latest).1 ∧
    (∀ (a : Member) (t : String),
      Effect.modLog a t ":white_check_mark:" ∉
        (s.on_reaction reaction reactor is_latest now latest).2) := by
  have heq : s.on_reaction reaction reactor is_latest now latest =
      ((s.maybe_poll_channels now latest).1,
        (if reaction.emoji = s.relocate_emoji ∧ reaction.count = 1 ∧
            reaction.message.author.id ≠ s.bot_user_id then
          s.redirect reaction.message reactor ++
            [Effect.addReaction reaction.message.id s.relocate_emoji]
        else []) ++ (s.maybe_poll_channels now latest).2) := by
    simp only [HelpChatServerState.on_reaction]
    rw [if_neg hfail]
    simp
  refine ⟨by rw [heq], ?_⟩
  intro a t hmm
  rw [heq, List.mem_append] at hmm
  rcases hmm with hmm | hmm
  · by_cases hrel : reaction.emoji = s.relocate_emoji ∧ reaction.count = 1 ∧
        reaction.message.author.id ≠ s.bot_user_id
    · rw [if_pos hrel, List.mem_append] at hmm
      rcases hmm with hmm | hmm
      · exact redirect_no_resolve_log s reaction.message reactor a t hmm
      · rw [List.mem_singleton] at hmm
        exact Effect.noConfusion hmm
    · rw [if_neg hrel] at hmm
      exact absurd hmm (List.not_mem_nil _)
  · obtain ⟨x, hx, hbx, he⟩ := maybe_poll_effects s now latest _ hmm
    exact Effect.noConfusion he

/-- Witness for the amended claim C7: resolve-by-reaction disabled; the
handler's result equals the pure sweep result and records no resolve log. -/
theorem claim_C7_amended_witness :
    (¬ (Reaction.emoji rx7 = defaultState.resolve_emoji ∧
        defaultState.resolve_with_reaction = true ∧
        (Reaction.message rx7).channel ∈ defaultState.channels ∧
        (true : Bool) = true)) ∧
    ((defaultState.on_reaction rx7 reactor6 true 10000 (fun _ => 0)).1 =
      (defaultState.maybe_poll_channels 10000 (fun _ => 0)).1 ∧
    (∀ (a : Member) (t : String),
      Effect.modLog a t ":white_check_mark:" ∉
        (defaultState.on_reaction rx7 reactor6 true 10000 (fun _ => 0)).2)) :=
  ⟨by decide,
    claim_C7_amended defaultState rx7 reactor6 true 10000 (fun _ => 0) (by decide)⟩
